import Mathlib

/-!
Shallow embedding of the `data` crate's wire-schema layer.

The repository defines serde-serializable types in three files:
  * `src/payloads.rs` — `EmptyPayloadStrict`, `EmptyPayload = Option<EmptyPayloadStrict>`,
    and the flatten-merge metadata wrappers `TokenPayload<Inner>` and `UserIdPayload<Inner>`;
  * `src/admin/requests.rs` — the adjacently tagged enum `AdminRequest`
    (`tag = "type"`, `content = "payload"`, SCREAMING_SNAKE_CASE variant names)
    with payload `IpAddrPayload { ip: IpAddr }`;
  * `src/external/auth/requests.rs` — the adjacently tagged enum `AuthRequest`
    with payloads `AuthReqPayload`, `EmptyPayload`, `RegisterPayload`.

The wire format is JSON. We model JSON values structurally (an object is a list
of field-name/value pairs in emission order) and translate each derived serde
`Serialize`/`Deserialize` implementation into an explicit Lean codec following
serde's documented derivation rules:
  * derived struct deserializers read their declared fields from an object and
    ignore unknown fields (no `deny_unknown_fields` appears in the sources);
  * a missing non-`Option` field is a missing-field error; a missing `Option`
    field (including the missing `content` field of an adjacently tagged enum)
    deserializes as `None`;
  * adjacently tagged enums serialize as an object holding the discriminator
    under `"type"` and the variant payload under `"payload"`, and deserialize by
    matching the discriminator first, failing with an unknown-variant error when
    it names no variant;
  * `#[serde(flatten)]` serializes the outer declared fields followed by the
    inner value's fields in one flat object, and deserializes by consuming the
    outer declared fields and handing all remaining fields to the inner type's
    deserializer.
-/

/-- A JSON value: the wire format of the schema layer. Objects keep their
fields as a list in emission order; decoders look fields up by name. -/
inductive Json : Type where
  | null : Json
  | bool (b : Bool) : Json
  | num (n : Nat) : Json
  | str (s : String) : Json
  | arr (elems : List Json) : Json
  | obj (fields : List (String × Json)) : Json
deriving Repr

/-- Look a field up by name in an object's field list (first match wins). -/
def Json.lookupField (fields : List (String × Json)) (key : String) : Option Json :=
  match fields with
  | [] => none
  | (k, v) :: rest => if k = key then some v else Json.lookupField rest key

/-- Drop every field with the given name; `#[serde(flatten)]` hands the
remaining fields to the inner deserializer after consuming the declared ones. -/
def Json.removeField (fields : List (String × Json)) (key : String) :
    List (String × Json) :=
  fields.filter (fun kv => kv.1 ≠ key)

/-- Typed decode errors of the schema layer (serde reports these as message
strings; the constructors mirror the cases the spec's taxonomy names). -/
inductive DecodeError : Type where
  | unknownVariant (tag : String)
  | missingField (name : String)
  | invalidType (expected : String)
deriving Repr, DecidableEq

/-- Embeds `EmptyPayloadStrict` of `src/payloads.rs` (lines 32-33): a struct
with zero fields. -/
structure EmptyPayloadStrict : Type where
deriving Repr, DecidableEq

/-- Derived serializer of `EmptyPayloadStrict`: an empty object. -/
def EmptyPayloadStrict.encode (_ : EmptyPayloadStrict) : Json :=
  Json.obj []

/-- Derived deserializer of `EmptyPayloadStrict`: accepts any JSON object,
reading no fields and ignoring all entries (the derive has no
`deny_unknown_fields`); any non-object wire value is a type error. -/
def EmptyPayloadStrict.decode : Json → Except DecodeError EmptyPayloadStrict
  | Json.obj _ => Except.ok {}
  | _ => Except.error (DecodeError.invalidType "struct EmptyPayloadStrict")

/-- Embeds `EmptyPayload = Option<EmptyPayloadStrict>` of `src/payloads.rs`
(line 60). -/
abbrev EmptyPayload : Type := Option EmptyPayloadStrict

/-- Serializer of `Option<EmptyPayloadStrict>`: `None` is JSON `null`,
`Some` serializes the inner value. -/
def EmptyPayload.encode : EmptyPayload → Json
  | none => Json.null
  | some e => e.encode

/-- Deserializer of `Option<EmptyPayloadStrict>` from a present wire value:
`null` is `None`, anything else must deserialize as the inner type. -/
def EmptyPayload.decode : Json → Except DecodeError EmptyPayload
  | Json.null => Except.ok none
  | v => (EmptyPayloadStrict.decode v).map some

/-- Deserialization of `Option<EmptyPayloadStrict>` when its field is absent
from the surrounding object: serde's missing-field path calls
`deserialize_option` and visits `None`, so the decode succeeds with `None`. -/
def EmptyPayload.decodeMissing : Except DecodeError EmptyPayload :=
  Except.ok none

/-- Deserialization of `EmptyPayloadStrict` when its field (named `payload` in
the surrounding types of the doc examples at `src/payloads.rs` lines 7-31) is
absent: serde's missing-field path rejects every non-`Option` type with a
missing-field error. -/
def EmptyPayloadStrict.decodeMissing : Except DecodeError EmptyPayloadStrict :=
  Except.error (DecodeError.missingField "payload")

/-- Decoding of an `EmptyPayloadStrict`-typed `payload` field of a surrounding
object, as described by the doc comment of `src/payloads.rs` lines 7-31: a
present value deserializes as `EmptyPayloadStrict`, a wire-absent field takes
the missing-field path. -/
def EmptyPayloadStrict.decodeField (fields : List (String × Json)) :
    Except DecodeError EmptyPayloadStrict :=
  match Json.lookupField fields "payload" with
  | none => EmptyPayloadStrict.decodeMissing
  | some v => EmptyPayloadStrict.decode v

/-- Modelled from the spec: the opaque `Token` value type lives in
`crate::valid::token`, which is not under `src/`; spec section 6 treats it as
an atomic value with its own encode/decode, and the doctest of
`src/payloads.rs` (lines 96-105) shows `Token::new("random-token")` appearing
on the wire as the JSON string `"random-token"`. We model it as a string
wrapper encoded as a JSON string. -/
structure Token : Type where
  val : String
deriving Repr, DecidableEq

/-- Token wire form: a JSON string (per the doctest of `src/payloads.rs`). -/
def Token.encode (t : Token) : Json :=
  Json.str t.val

/-- Token decode: accepts exactly JSON strings. -/
def Token.decode : Json → Except DecodeError Token
  | Json.str s => Except.ok ⟨s⟩
  | _ => Except.error (DecodeError.invalidType "Token")

/-- Modelled from the spec: the opaque `UserId` value type lives in
`crate::valid::ids`, which is not under `src/`; spec section 6 treats it as an
atomic value with its own encode/decode. We model it as a numeric identifier
encoded as a JSON number. -/
structure UserId : Type where
  val : Nat
deriving Repr, DecidableEq

/-- UserId wire form: a JSON number. -/
def UserId.encode (u : UserId) : Json :=
  Json.num u.val

/-- UserId decode: accepts exactly JSON numbers. -/
def UserId.decode : Json → Except DecodeError UserId
  | Json.num n => Except.ok ⟨n⟩
  | _ => Except.error (DecodeError.invalidType "UserId")

/-- Embeds `AuthReqPayload` of `src/external/auth/requests.rs` (lines 17-24):
fields `raw_username` and `raw_password`, renamed on the wire to `username`
and `password`. -/
structure AuthReqPayload : Type where
  raw_username : String
  raw_password : String
deriving Repr, DecidableEq

/-- Derived serializer of `AuthReqPayload`: its fields in declaration order,
under their wire names. -/
def AuthReqPayload.encodeFields (p : AuthReqPayload) : List (String × Json) :=
  [("username", Json.str p.raw_username), ("password", Json.str p.raw_password)]

/-- The serializer of `AuthReqPayload` as a standalone wire value. -/
def AuthReqPayload.encode (p : AuthReqPayload) : Json :=
  Json.obj p.encodeFields

/-- Derived deserializer of `AuthReqPayload`: reads `username` and `password`
(both strings) from an object, ignoring unknown fields; a missing field is a
missing-field error, a non-object is a type error. -/
def AuthReqPayload.decode : Json → Except DecodeError AuthReqPayload
  | Json.obj fields =>
    match Json.lookupField fields "username" with
    | none => Except.error (DecodeError.missingField "username")
    | some (Json.str u) =>
      match Json.lookupField fields "password" with
      | none => Except.error (DecodeError.missingField "password")
      | some (Json.str p) => Except.ok ⟨u, p⟩
      | some _ => Except.error (DecodeError.invalidType "string")
    | some _ => Except.error (DecodeError.invalidType "string")
  | _ => Except.error (DecodeError.invalidType "struct AuthReqPayload")

/-- Embeds `RegisterPayload` of `src/external/auth/requests.rs` (lines
26-34): wire fields `username`, `password`, `email`. -/
structure RegisterPayload : Type where
  raw_username : String
  raw_password : String
  raw_email : String
deriving Repr, DecidableEq

/-- Derived serializer of `RegisterPayload`. -/
def RegisterPayload.encode (p : RegisterPayload) : Json :=
  Json.obj [("username", Json.str p.raw_username),
            ("password", Json.str p.raw_password),
            ("email", Json.str p.raw_email)]

/-- Derived deserializer of `RegisterPayload`: the three wire fields, unknown
fields ignored. -/
def RegisterPayload.decode : Json → Except DecodeError RegisterPayload
  | Json.obj fields =>
    match Json.lookupField fields "username" with
    | none => Except.error (DecodeError.missingField "username")
    | some (Json.str u) =>
      match Json.lookupField fields "password" with
      | none => Except.error (DecodeError.missingField "password")
      | some (Json.str p) =>
        match Json.lookupField fields "email" with
        | none => Except.error (DecodeError.missingField "email")
        | some (Json.str e) => Except.ok ⟨u, p, e⟩
        | some _ => Except.error (DecodeError.invalidType "string")
      | some _ => Except.error (DecodeError.invalidType "string")
    | some _ => Except.error (DecodeError.invalidType "string")
  | _ => Except.error (DecodeError.invalidType "struct RegisterPayload")

/-- Models `std::net::IpAddr` as serde_json carries it in human-readable form:
an atomic JSON string holding the textual address. The standard library's
address-syntax validation is external to this repository and is not modelled;
the schema layer only requires the value to encode to and decode from one
wire field. -/
structure IpAddr : Type where
  addr : String
deriving Repr, DecidableEq

/-- IpAddr wire form: a JSON string. -/
def IpAddr.encode (a : IpAddr) : Json :=
  Json.str a.addr

/-- IpAddr decode: accepts exactly JSON strings. -/
def IpAddr.decode : Json → Except DecodeError IpAddr
  | Json.str s => Except.ok ⟨s⟩
  | _ => Except.error (DecodeError.invalidType "IP address")

/-- Embeds `IpAddrPayload` of `src/admin/requests.rs` (lines 20-23): one
public field `ip`. -/
structure IpAddrPayload : Type where
  ip : IpAddr
deriving Repr, DecidableEq

/-- Derived serializer of `IpAddrPayload`. -/
def IpAddrPayload.encode (p : IpAddrPayload) : Json :=
  Json.obj [("ip", p.ip.encode)]

/-- Derived deserializer of `IpAddrPayload`: reads `ip`, ignoring unknown
fields. -/
def IpAddrPayload.decode : Json → Except DecodeError IpAddrPayload
  | Json.obj fields =>
    match Json.lookupField fields "ip" with
    | none => Except.error (DecodeError.missingField "ip")
    | some v => (IpAddr.decode v).map (fun a => ⟨a⟩)
  | _ => Except.error (DecodeError.invalidType "struct IpAddrPayload")

/-- Embeds `TokenPayload<Inner>` of `src/payloads.rs` (lines 111-116): a
`token` field plus a `#[serde(flatten)]` inner value. -/
structure TokenPayload (Inner : Type) : Type where
  token : Token
  inner : Inner
deriving Repr, DecidableEq

/-- Embeds `TokenPayload::new` (lines 119-124). -/
def TokenPayload.new {Inner : Type} (i : Inner) (t : Token) : TokenPayload Inner :=
  { token := t, inner := i }

/-- Embeds `TokenPayload::set_token` (lines 132-134): `std::mem::replace` on
the `token` field. Rust mutates in place and returns the previous token; we
return the previous token together with the post-call wrapper state. -/
def TokenPayload.set_token {Inner : Type} (w : TokenPayload Inner) (t : Token) :
    Token × TokenPayload Inner :=
  (w.token, { w with token := t })

/-- Embeds `TokenPayload::into_inner` (lines 137-139). -/
def TokenPayload.into_inner {Inner : Type} (w : TokenPayload Inner) : Inner × Token :=
  (w.inner, w.token)

/-- Embeds the `Deref` impl of `TokenPayload` (lines 142-147): delegated
access reaches the inner value. -/
def TokenPayload.deref {Inner : Type} (w : TokenPayload Inner) : Inner :=
  w.inner

/-- Derived serializer of `TokenPayload<Inner>` with `#[serde(flatten)]` on
`inner`: one flat object holding the declared `token` field first, then the
inner value's fields. -/
def TokenPayload.encode {Inner : Type} (innerFields : Inner → List (String × Json))
    (w : TokenPayload Inner) : Json :=
  Json.obj (("token", w.token.encode) :: innerFields w.inner)

/-- Derived deserializer of `TokenPayload<Inner>` with `#[serde(flatten)]`:
the declared `token` field is read and consumed from the object, and all
remaining fields are handed to `Inner`'s deserializer. -/
def TokenPayload.decode {Inner : Type} (innerDecode : Json → Except DecodeError Inner) :
    Json → Except DecodeError (TokenPayload Inner)
  | Json.obj fields =>
    match Json.lookupField fields "token" with
    | none => Except.error (DecodeError.missingField "token")
    | some tv =>
      match Token.decode tv with
      | Except.error e => Except.error e
      | Except.ok t =>
        (innerDecode (Json.obj (Json.removeField fields "token"))).map
          (fun i => { token := t, inner := i })
  | _ => Except.error (DecodeError.invalidType "map")

/-- Embeds `UserIdPayload<Inner>` of `src/payloads.rs` (lines 168-173): an
`id` field plus a `#[serde(flatten)]` inner value. -/
structure UserIdPayload (Inner : Type) : Type where
  id : UserId
  inner : Inner
deriving Repr, DecidableEq

/-- Embeds `UserIdPayload::new` (lines 176-181). -/
def UserIdPayload.new {Inner : Type} (i : Inner) (u : UserId) : UserIdPayload Inner :=
  { id := u, inner := i }

/-- Embeds `UserIdPayload::set_id` (lines 189-191): `std::mem::replace` on the
`id` field, returning the previous id together with the post-call state. -/
def UserIdPayload.set_id {Inner : Type} (w : UserIdPayload Inner) (u : UserId) :
    UserId × UserIdPayload Inner :=
  (w.id, { w with id := u })

/-- Embeds `UserIdPayload::into_inner` (lines 194-196). -/
def UserIdPayload.into_inner {Inner : Type} (w : UserIdPayload Inner) : Inner × UserId :=
  (w.inner, w.id)

/-- Embeds the `Deref` impl of `UserIdPayload` (lines 199-204). -/
def UserIdPayload.deref {Inner : Type} (w : UserIdPayload Inner) : Inner :=
  w.inner

/-- Derived serializer of `UserIdPayload<Inner>`: one flat object, the
declared `id` field first, then the inner value's fields. -/
def UserIdPayload.encode {Inner : Type} (innerFields : Inner → List (String × Json))
    (w : UserIdPayload Inner) : Json :=
  Json.obj (("id", w.id.encode) :: innerFields w.inner)

/-- Derived deserializer of `UserIdPayload<Inner>`: the declared `id` field is
read and consumed, the remaining fields go to `Inner`'s deserializer. -/
def UserIdPayload.decode {Inner : Type} (innerDecode : Json → Except DecodeError Inner) :
    Json → Except DecodeError (UserIdPayload Inner)
  | Json.obj fields =>
    match Json.lookupField fields "id" with
    | none => Except.error (DecodeError.missingField "id")
    | some iv =>
      match UserId.decode iv with
      | Except.error e => Except.error e
      | Except.ok u =>
        (innerDecode (Json.obj (Json.removeField fields "id"))).map
          (fun i => { id := u, inner := i })
  | _ => Except.error (DecodeError.invalidType "map")

/-- Embeds `AuthRequest` of `src/external/auth/requests.rs` (lines 5-15): an
adjacently tagged enum (`tag = "type"`, `content = "payload"`,
`rename_all = "SCREAMING_SNAKE_CASE"`). -/
inductive AuthRequest : Type where
  | Authenticate (p : AuthReqPayload)
  | Deauthenticate (p : EmptyPayload)
  | RegisterUser (p : RegisterPayload)
deriving Repr, DecidableEq

/-- Derived serializer of `AuthRequest`: an object with the discriminator
under `"type"` (SCREAMING_SNAKE_CASE variant name) followed by the variant's
payload under `"payload"`. -/
def AuthRequest.encode : AuthRequest → Json
  | AuthRequest.Authenticate p =>
    Json.obj [("type", Json.str "AUTHENTICATE"), ("payload", p.encode)]
  | AuthRequest.Deauthenticate p =>
    Json.obj [("type", Json.str "DEAUTHENTICATE"), ("payload", EmptyPayload.encode p)]
  | AuthRequest.RegisterUser p =>
    Json.obj [("type", Json.str "REGISTER_USER"), ("payload", p.encode)]

/-- Derived deserializer of `AuthRequest`: the discriminator is matched first;
a tag naming no variant is an unknown-variant error regardless of the payload;
a matching tag decodes the `payload` field as that variant's payload type, the
missing-field path applying when `payload` is absent (it yields `None` for the
`Option`-typed `Deauthenticate` payload and an error for the others). -/
def AuthRequest.decode : Json → Except DecodeError AuthRequest
  | Json.obj fields =>
    match Json.lookupField fields "type" with
    | none => Except.error (DecodeError.missingField "type")
    | some (Json.str tag) =>
      if tag = "AUTHENTICATE" then
        match Json.lookupField fields "payload" with
        | none => Except.error (DecodeError.missingField "payload")
        | some pv => (AuthReqPayload.decode pv).map AuthRequest.Authenticate
      else if tag = "DEAUTHENTICATE" then
        match Json.lookupField fields "payload" with
        | none => EmptyPayload.decodeMissing.map AuthRequest.Deauthenticate
        | some pv => (EmptyPayload.decode pv).map AuthRequest.Deauthenticate
      else if tag = "REGISTER_USER" then
        match Json.lookupField fields "payload" with
        | none => Except.error (DecodeError.missingField "payload")
        | some pv => (RegisterPayload.decode pv).map AuthRequest.RegisterUser
      else Except.error (DecodeError.unknownVariant tag)
    | some _ => Except.error (DecodeError.invalidType "string")
  | _ => Except.error (DecodeError.invalidType "map")

/-- Embeds `AdminRequest` of `src/admin/requests.rs` (lines 9-18): an
adjacently tagged enum with the same tagging configuration as `AuthRequest`. -/
inductive AdminRequest : Type where
  | BanIp (p : IpAddrPayload)
  | UnbanIp (p : IpAddrPayload)
deriving Repr, DecidableEq

/-- Derived serializer of `AdminRequest`. -/
def AdminRequest.encode : AdminRequest → Json
  | AdminRequest.BanIp p =>
    Json.obj [("type", Json.str "BAN_IP"), ("payload", p.encode)]
  | AdminRequest.UnbanIp p =>
    Json.obj [("type", Json.str "UNBAN_IP"), ("payload", p.encode)]

/-- Derived deserializer of `AdminRequest`: discriminator matched first,
unknown tags rejected without touching the payload. -/
def AdminRequest.decode : Json → Except DecodeError AdminRequest
  | Json.obj fields =>
    match Json.lookupField fields "type" with
    | none => Except.error (DecodeError.missingField "type")
    | some (Json.str tag) =>
      if tag = "BAN_IP" then
        match Json.lookupField fields "payload" with
        | none => Except.error (DecodeError.missingField "payload")
        | some pv => (IpAddrPayload.decode pv).map AdminRequest.BanIp
      else if tag = "UNBAN_IP" then
        match Json.lookupField fields "payload" with
        | none => Except.error (DecodeError.missingField "payload")
        | some pv => (IpAddrPayload.decode pv).map AdminRequest.UnbanIp
      else Except.error (DecodeError.unknownVariant tag)
    | some _ => Except.error (DecodeError.invalidType "string")
  | _ => Except.error (DecodeError.invalidType "map")

/-- The field list of a JSON object (non-objects have no fields). -/
def Json.fieldsOf : Json → List (String × Json)
  | Json.obj fields => fields
  | _ => []

/-- C1: decoding the encoding of any `AdminRequest` value and of any
`AuthRequest` value yields the original value back. -/
theorem envelope_decode_encode_roundtrip :
    (∀ r : AdminRequest, AdminRequest.decode (AdminRequest.encode r) = Except.ok r) ∧
    (∀ r : AuthRequest, AuthRequest.decode (AuthRequest.encode r) = Except.ok r) := by
  constructor
  · intro r
    cases r <;> rfl
  · intro r
    cases r with
    | Authenticate p => rfl
    | Deauthenticate p => cases p <;> rfl
    | RegisterUser p => rfl

/-- C7: an envelope whose discriminator names no variant is rejected with the
unknown-variant error for every payload value, malformed or not; the payload
is never consulted. -/
theorem unknown_discriminator_rejects_without_payload :
    (∀ payload : Json,
      AuthRequest.decode
          (Json.obj [("type", Json.str "NOT_A_REAL_VARIANT"), ("payload", payload)]) =
        Except.error (DecodeError.unknownVariant "NOT_A_REAL_VARIANT")) ∧
    (∀ payload : Json,
      AdminRequest.decode
          (Json.obj [("type", Json.str "NOT_A_REAL_VARIANT"), ("payload", payload)]) =
        Except.error (DecodeError.unknownVariant "NOT_A_REAL_VARIANT")) :=
  ⟨fun _ => rfl, fun _ => rfl⟩

/-- C9: decoding the envelope object with discriminator `DEAUTHENTICATE` and
no payload field succeeds with the `Deauthenticate` variant holding the
logical none value of its `Option`-typed empty payload. -/
theorem deauthenticate_absent_payload_decodes :
    AuthRequest.decode (Json.obj [("type", Json.str "DEAUTHENTICATE")]) =
      Except.ok (AuthRequest.Deauthenticate none) := rfl

/-- C10: the derived deserializer of the strict empty payload accepts every
JSON object, arbitrary unknown fields included. -/
theorem strict_empty_payload_accepts_any_object :
    ∀ fields : List (String × Json),
      EmptyPayloadStrict.decode (Json.obj fields) = Except.ok ⟨⟩ :=
  fun _ => rfl

/-- C6: the metadata-replacing operations `set_token` and `set_id` return
exactly the metadata stored immediately before the call, and afterwards the
metadata accessor returns the new value. -/
theorem replace_metadata_returns_previous :
    (∀ (Inner : Type) (w : TokenPayload Inner) (t : Token),
      (w.set_token t).1 = w.token ∧ ((w.set_token t).2).token = t) ∧
    (∀ (Inner : Type) (w : UserIdPayload Inner) (u : UserId),
      (w.set_id u).1 = w.id ∧ ((w.set_id u).2).id = u) :=
  ⟨fun _ _ _ => ⟨rfl, rfl⟩, fun _ _ _ => ⟨rfl, rfl⟩⟩

/-- C2: encoding the token wrapper built from credentials `john`/`pw` and the
token `abc` produces one flat object whose field set is exactly
`username`/`password`/`token` with those values (the emission order puts the
declared `token` field first, a permutation of the listing in the claim), and
decoding the merged object yields a wrapper whose token accessor returns the
token `abc` and whose delegated `username` field is `john`. -/
theorem token_payload_concrete_scenario :
    TokenPayload.encode AuthReqPayload.encodeFields
        (TokenPayload.new ⟨"john", "pw"⟩ ⟨"abc"⟩) =
      Json.obj [("token", Json.str "abc"),
                ("username", Json.str "john"), ("password", Json.str "pw")] ∧
    List.Perm
      [("token", Json.str "abc"),
       ("username", Json.str "john"), ("password", Json.str "pw")]
      [("username", Json.str "john"), ("password", Json.str "pw"),
       ("token", Json.str "abc")] ∧
    TokenPayload.decode AuthReqPayload.decode
        (Json.obj [("username", Json.str "john"), ("password", Json.str "pw"),
                   ("token", Json.str "abc")]) =
      Except.ok (TokenPayload.new ⟨"john", "pw"⟩ ⟨"abc"⟩) ∧
    (TokenPayload.new (⟨"john", "pw"⟩ : AuthReqPayload) (⟨"abc"⟩ : Token)).token =
      ⟨"abc"⟩ ∧
    (TokenPayload.new (⟨"john", "pw"⟩ : AuthReqPayload) (⟨"abc"⟩ : Token)).deref.raw_username =
      "john" :=
  ⟨rfl, @List.perm_append_comm _ [("token", Json.str "abc")] _, rfl, rfl, rfl⟩

/-- C3 counterexample: decoding the wire-absent payload and decoding the
present empty object for the optional empty payload of `Deauthenticate` give
two different results, so the claim that the two decoded results are equal
fails at this input. -/
theorem optional_empty_payload_decodes_differ :
    AuthRequest.decode (Json.obj [("type", Json.str "DEAUTHENTICATE")]) ≠
      AuthRequest.decode
        (Json.obj [("type", Json.str "DEAUTHENTICATE"), ("payload", Json.obj [])]) :=
  fun h => Option.noConfusion (AuthRequest.Deauthenticate.inj (Except.ok.inj h))

/-- C3 amended: both wire forms decode successfully, but the wire-absent field
yields the logical none value while the present empty object yields the
some-unit value; the two decoded values are distinct. -/
theorem optional_empty_payload_two_wire_forms :
    AuthRequest.decode (Json.obj [("type", Json.str "DEAUTHENTICATE")]) =
      Except.ok (AuthRequest.Deauthenticate none) ∧
    AuthRequest.decode
        (Json.obj [("type", Json.str "DEAUTHENTICATE"), ("payload", Json.obj [])]) =
      Except.ok (AuthRequest.Deauthenticate (some ⟨⟩)) ∧
    (none : EmptyPayload) ≠ some ⟨⟩ :=
  ⟨rfl, rfl, by decide⟩

/-- C4 counterexample: the value decoded from the absent-field wire form
re-encodes with the payload field present but equal to `null`, not to the
empty object, so the claim that re-encoding always emits the
present-empty-object form fails at this input. -/
theorem reencoded_none_payload_is_null :
    AuthRequest.decode (Json.obj [("type", Json.str "DEAUTHENTICATE")]) =
      Except.ok (AuthRequest.Deauthenticate none) ∧
    AuthRequest.encode (AuthRequest.Deauthenticate none) =
      Json.obj [("type", Json.str "DEAUTHENTICATE"), ("payload", Json.null)] ∧
    Json.null ≠ Json.obj [] :=
  ⟨rfl, rfl, fun h => Json.noConfusion h⟩

/-- C4 amended: re-encoding a decoded optional empty payload always emits the
payload field present, never the absent-field form; its value is `null` when
the decoded value is the none value (the absent-form decode) and the empty
object when it is the some-unit value (the present-form decode). -/
theorem reencoded_optional_payload_always_present :
    ∀ p : EmptyPayload,
      Json.lookupField
          (Json.fieldsOf (AuthRequest.encode (AuthRequest.Deauthenticate p))) "payload" =
        some (EmptyPayload.encode p) ∧
      EmptyPayload.encode none = Json.null ∧
      EmptyPayload.encode (some ⟨⟩) = Json.obj [] := by
  intro p
  cases p <;> exact ⟨rfl, rfl, rfl⟩

/-- C8 counterexample: a present payload object carrying an unknown field
decodes successfully as the strict empty payload, so the claim that only a
present empty object decodes successfully fails at this input. -/
theorem strict_empty_payload_accepts_nonempty_object :
    EmptyPayloadStrict.decodeField [("payload", Json.obj [("extra", Json.num 1)])] =
      Except.ok ⟨⟩ ∧
    Json.obj [("extra", Json.num 1)] ≠ Json.obj [] :=
  ⟨rfl, fun h => List.noConfusion (Json.obj.inj h)⟩

/-- C8 amended: decoding the strict empty payload fails with the
missing-required-field error whenever its field is wire-absent from the
surrounding object, and any present payload that is a JSON object decodes
successfully (the empty object, or any object, since unknown fields are
ignored). -/
theorem strict_empty_payload_field_semantics :
    (∀ fields : List (String × Json),
      Json.lookupField fields "payload" = none →
        EmptyPayloadStrict.decodeField fields =
          Except.error (DecodeError.missingField "payload")) ∧
    (∀ (fields : List (String × Json)) (o : List (String × Json)),
      Json.lookupField fields "payload" = some (Json.obj o) →
        EmptyPayloadStrict.decodeField fields = Except.ok ⟨⟩) := by
  constructor
  · intro fields h
    simp [EmptyPayloadStrict.decodeField, h, EmptyPayloadStrict.decodeMissing]
  · intro fields o h
    simp [EmptyPayloadStrict.decodeField, h, EmptyPayloadStrict.decode]

/-- Witness for the amended C8 theorem at concrete inputs: the empty
surrounding object takes the missing-field path, and a present empty payload
object decodes successfully. -/
theorem strict_empty_payload_field_semantics_witness :
    EmptyPayloadStrict.decodeField [] =
      Except.error (DecodeError.missingField "payload") ∧
    EmptyPayloadStrict.decodeField [("payload", Json.obj [])] = Except.ok ⟨⟩ :=
  ⟨strict_empty_payload_field_semantics.1 [] rfl,
   strict_empty_payload_field_semantics.2 [("payload", Json.obj [])] [] rfl⟩

/-- Removing one field name leaves lookups of every other field name
unchanged: the flatten deserializer's hand-off of the remaining fields never
disturbs the inner type's own fields. -/
theorem Json.lookupField_removeField (fields : List (String × Json)) (k k' : String)
    (h : k' ≠ k) :
    Json.lookupField (Json.removeField fields k) k' = Json.lookupField fields k' := by
  induction fields with
  | nil => rfl
  | cons kv rest ih =>
    have hkk : ¬(k = k') := fun he => h he.symm
    by_cases hk : kv.1 = k
    · have hk' : ¬(kv.1 = k') := fun he => h (he ▸ hk)
      simpa [Json.removeField, List.filter_cons, hk, Json.lookupField, hk', hkk] using ih
    · by_cases hk' : kv.1 = k'
      · simp [Json.removeField, List.filter_cons, hk, Json.lookupField, hk', h]
      · simpa [Json.removeField, List.filter_cons, hk, Json.lookupField, hk'] using ih

/-- Shape characterization of the derived `AuthReqPayload` deserializer: it
succeeds on an object exactly when `username` and `password` are present as
strings, with no condition on any other field. -/
theorem authReqPayload_decode_ok_iff (fields : List (String × Json)) :
    (∃ p, AuthReqPayload.decode (Json.obj fields) = Except.ok p) ↔
      ((∃ s, Json.lookupField fields "username" = some (Json.str s)) ∧
       (∃ s, Json.lookupField fields "password" = some (Json.str s))) := by
  constructor
  · rintro ⟨p, hp⟩
    rcases hu : Json.lookupField fields "username" with _ | v
    · simp [AuthReqPayload.decode, hu] at hp
    · cases v <;> simp [AuthReqPayload.decode, hu] at hp
      case str u =>
        rcases hpw : Json.lookupField fields "password" with _ | w
        · simp [hpw] at hp
        · cases w <;> simp [hpw] at hp
          case str pw => exact ⟨⟨u, rfl⟩, ⟨pw, rfl⟩⟩
  · rintro ⟨⟨u, hu⟩, ⟨pw, hpw⟩⟩
    exact ⟨⟨u, pw⟩, by simp [AuthReqPayload.decode, hu, hpw]⟩

/-- C5: decoding the merged flat wire object of a metadata wrapper
(instantiated as in the sources over the credentials payload) fails exactly
when the metadata field (`token` for `TokenPayload`, `id` for `UserIdPayload`)
is absent or malformed or when the remaining fields fail the inner type's own
shape validation; equivalently, it succeeds exactly when the metadata field
and the inner type's fields are present and well-shaped, with no condition on
extra unrecognized fields. Stated for genuine JSON objects, whose field names
are distinct. -/
theorem merged_wrapper_decode_failure_semantics :
    (∀ fields : List (String × Json), (fields.map Prod.fst).Nodup →
      ((∃ w, TokenPayload.decode AuthReqPayload.decode (Json.obj fields) = Except.ok w) ↔
        ((∃ s, Json.lookupField fields "token" = some (Json.str s)) ∧
         (∃ s, Json.lookupField fields "username" = some (Json.str s)) ∧
         (∃ s, Json.lookupField fields "password" = some (Json.str s))))) ∧
    (∀ fields : List (String × Json), (fields.map Prod.fst).Nodup →
      ((∃ w, UserIdPayload.decode AuthReqPayload.decode (Json.obj fields) = Except.ok w) ↔
        ((∃ n, Json.lookupField fields "id" = some (Json.num n)) ∧
         (∃ s, Json.lookupField fields "username" = some (Json.str s)) ∧
         (∃ s, Json.lookupField fields "password" = some (Json.str s))))) := by
  constructor
  · intro fields _
    have hun : ("username" : String) ≠ "token" := by decide
    have hpw : ("password" : String) ≠ "token" := by decide
    constructor
    · rintro ⟨w, hw⟩
      rcases ht : Json.lookupField fields "token" with _ | tv
      · simp [TokenPayload.decode, ht] at hw
      · cases tv <;> simp [TokenPayload.decode, Token.decode, ht] at hw
        case str ts =>
          rcases hi : AuthReqPayload.decode
              (Json.obj (Json.removeField fields "token")) with e | i
          · simp [hi, Except.map] at hw
          · have hinner := (authReqPayload_decode_ok_iff
                (Json.removeField fields "token")).mp ⟨i, hi⟩
            rw [Json.lookupField_removeField fields "token" "username" hun,
                Json.lookupField_removeField fields "token" "password" hpw] at hinner
            exact ⟨⟨ts, rfl⟩, hinner.1, hinner.2⟩
    · rintro ⟨⟨ts, ht⟩, hu, hp⟩
      have hinner := (authReqPayload_decode_ok_iff (Json.removeField fields "token")).mpr
        (by rw [Json.lookupField_removeField fields "token" "username" hun,
                Json.lookupField_removeField fields "token" "password" hpw]
            exact ⟨hu, hp⟩)
      rcases hinner with ⟨i, hi⟩
      exact ⟨⟨⟨ts⟩, i⟩, by simp [TokenPayload.decode, ht, Token.decode, hi, Except.map]⟩
  · intro fields _
    have hun : ("username" : String) ≠ "id" := by decide
    have hpw : ("password" : String) ≠ "id" := by decide
    constructor
    · rintro ⟨w, hw⟩
      rcases ht : Json.lookupField fields "id" with _ | iv
      · simp [UserIdPayload.decode, ht] at hw
      · cases iv <;> simp [UserIdPayload.decode, UserId.decode, ht] at hw
        case num n =>
          rcases hi : AuthReqPayload.decode
              (Json.obj (Json.removeField fields "id")) with e | i
          · simp [hi, Except.map] at hw
          · have hinner := (authReqPayload_decode_ok_iff
                (Json.removeField fields "id")).mp ⟨i, hi⟩
            rw [Json.lookupField_removeField fields "id" "username" hun,
                Json.lookupField_removeField fields "id" "password" hpw] at hinner
            exact ⟨⟨n, rfl⟩, hinner.1, hinner.2⟩
    · rintro ⟨⟨n, ht⟩, hu, hp⟩
      have hinner := (authReqPayload_decode_ok_iff (Json.removeField fields "id")).mpr
        (by rw [Json.lookupField_removeField fields "id" "username" hun,
                Json.lookupField_removeField fields "id" "password" hpw]
            exact ⟨hu, hp⟩)
      rcases hinner with ⟨i, hi⟩
      exact ⟨⟨⟨n⟩, i⟩, by simp [UserIdPayload.decode, ht, UserId.decode, hi, Except.map]⟩

/-- Witness for C5 at concrete merged objects that carry a valid metadata
field, valid inner fields, and an extra unrecognized field: both wrapper
decodes succeed. -/
theorem merged_wrapper_decode_failure_semantics_witness :
    (∃ w, TokenPayload.decode AuthReqPayload.decode
        (Json.obj [("token", Json.str "abc"), ("username", Json.str "u"),
                   ("password", Json.str "p"), ("extra", Json.num 1)]) = Except.ok w) ∧
    (∃ w, UserIdPayload.decode AuthReqPayload.decode
        (Json.obj [("id", Json.num 7), ("username", Json.str "u"),
                   ("password", Json.str "p"), ("extra", Json.num 1)]) = Except.ok w) :=
  ⟨(merged_wrapper_decode_failure_semantics.1 _ (by decide)).mpr
      ⟨⟨"abc", rfl⟩, ⟨"u", rfl⟩, ⟨"p", rfl⟩⟩,
   (merged_wrapper_decode_failure_semantics.2 _ (by decide)).mpr
      ⟨⟨7, rfl⟩, ⟨"u", rfl⟩, ⟨"p", rfl⟩⟩⟩
